import Mathlib

/-!
# Verification of the causeflow request/response contract and client codec

Shallow embedding of the validation and state-synchronization logic of the
`byronxlg/causeflow` repository:

* the zod request schema `generateRequestSchema` and response schema
  `generateResponseSchema` (`src/sites/src/lib/types`),
* the URL query-state codec `encodeUrlState` / `decodeUrlState`
  (`src/sites/src/lib/utils`),
* the history-merge deduplication of `handleRequestMoreEvents` and the
  error mapping of `handleGenerate` (`src/App.tsx`).

JavaScript strings are modelled by Lean `String`; JavaScript numbers that
flow through the codec are modelled by `JsNum` (an integer or `NaN`, the
only values produced there); the JSON numbers accepted by the request
schema are modelled by `ℚ` so that fractional values are representable.
-/

namespace CauseFlow

/-- A JavaScript number as it occurs in the URL codec: every value produced
there is either an integer (`parseInt` success, integer literals) or `NaN`
(`parseInt` failure). -/
inductive JsNum where
  | nan : JsNum
  | int : Int → JsNum
deriving DecidableEq, Repr

/-- JavaScript truthiness of a number: `0` and `NaN` are falsy. -/
def jsTruthyNum : JsNum → Bool
  | .nan => false
  | .int n => n != 0

/-- `Number.prototype.toString` for the values of `JsNum`. -/
def jsNumToString : JsNum → String
  | .nan => "NaN"
  | .int n => toString n

/-- Decimal value of a run of digit characters, most significant first. -/
def digitsVal (ds : List Char) : Nat :=
  ds.foldl (fun a c => 10 * a + (c.toNat - 48)) 0

/-- Core of JavaScript `parseInt(s, 10)` after whitespace stripping:
an optional sign followed by a longest run of leading decimal digits;
`NaN` when no digit is found. -/
def parseIntCore (cs : List Char) : JsNum :=
  match cs with
  | '-' :: rest =>
    match rest.takeWhile Char.isDigit with
    | [] => .nan
    | ds => .int (-(digitsVal ds : Int))
  | '+' :: rest =>
    match rest.takeWhile Char.isDigit with
    | [] => .nan
    | ds => .int (digitsVal ds)
  | _ =>
    match cs.takeWhile Char.isDigit with
    | [] => .nan
    | ds => .int (digitsVal ds)

/-- JavaScript `parseInt(s, 10)`: leading whitespace is skipped, then an
optional sign and leading digits are read; `NaN` if no digit follows. -/
def parseIntJs (s : String) : JsNum :=
  parseIntCore (s.toList.dropWhile Char.isWhitespace)

/-- The UI state handled by the URL codec
(`QueryState` fields `event`, `perspective`, `detailLevel`, `verify`). -/
structure UrlState where
  event : String
  perspective : String
  detailLevel : JsNum
  verify : Bool
deriving DecidableEq, Repr

/-- JavaScript truthiness of a string: the empty string is falsy. -/
def jsTruthyStr (s : String) : Bool := s != ""

/-- JavaScript `a || d` for a nullable string `a`:
`null` and the empty string both fall back to `d`. -/
def jsOrStr (o : Option String) (d : String) : String :=
  match o with
  | none => d
  | some s => if s = "" then d else s

/-- The five perspective values of the request schema enumeration. -/
def perspectiveValues : List String :=
  ["economic", "political", "social", "technical", "balanced"]

/-- `encodeUrlState` (src/sites/src/lib/utils): builds the URL search
parameters, emitting `q` for a truthy event, `p` for a truthy perspective
other than `"balanced"`, `d` for a truthy detail level other than `5`, and
`v=1` when `verify` is set.  `URLSearchParams` is modelled as the
association list of its entries (its serialization round-trips values). -/
def encodeUrlState (s : UrlState) : List (String × String) :=
  (if jsTruthyStr s.event then [("q", s.event)] else []) ++
  (if jsTruthyStr s.perspective && s.perspective != "balanced" then
    [("p", s.perspective)] else []) ++
  (if jsTruthyNum s.detailLevel && s.detailLevel != .int 5 then
    [("d", jsNumToString s.detailLevel)] else []) ++
  (if s.verify then [("v", "1")] else [])

/-- `decodeUrlState` (src/sites/src/lib/utils): reads the parameters back,
with `params.get(k) || default` falling back on a missing or empty value,
`parseInt(params.get('d') || '5', 10)` for the detail level, and
`params.get('v') === '1'` for the verify flag. -/
def decodeUrlState (params : List (String × String)) : UrlState :=
  { event := jsOrStr (params.lookup "q") ""
  , perspective := jsOrStr (params.lookup "p") "balanced"
  , detailLevel := parseIntJs (jsOrStr (params.lookup "d") "5")
  , verify := params.lookup "v" == some "1" }

/-- Stated from the specification's round-trip clause: `normalize`
substitutes the default for each field holding its default-equivalent value
(event `""`, perspective `"balanced"`, detailLevel `5`, verify `false`). -/
def normalizeState (s : UrlState) : UrlState :=
  { event := if s.event = "" then "" else s.event
  , perspective := if s.perspective = "balanced" then "balanced" else s.perspective
  , detailLevel := if s.detailLevel = .int 5 then .int 5 else s.detailLevel
  , verify := if s.verify = false then false else s.verify }

/-! ## The request schema (`generateRequestSchema`) -/

/-- A candidate generation request as it reaches the schema: the `event`
field a string, `detailLevel` an optional JSON number (modelled by `ℚ`),
`perspective` an optional string. -/
structure ReqCandidate where
  event : String
  detailLevel : Option ℚ
  perspective : Option String
deriving DecidableEq, Repr

/-- A parsed `GenerateRequest`, defaults applied. -/
structure GenerateRequest where
  event : String
  detailLevel : ℚ
  perspective : String
deriving DecidableEq, Repr

/-- The field paths of the zod issues raised by `generateRequestSchema`
(src/sites/src/lib/types): `event` must be a string of length 5–300,
`detailLevel` (when present) a number in `[1, 7]`, `perspective` (when
present) one of the five enumerated values.  There is no integrality
check on `detailLevel` in the source. -/
def requestIssues (c : ReqCandidate) : List String :=
  (if c.event.length < 5 ∨ 300 < c.event.length then ["event"] else []) ++
  (match c.detailLevel with
   | none => []
   | some d => if d < 1 ∨ 7 < d then ["detailLevel"] else []) ++
  (match c.perspective with
   | none => []
   | some p => if p ∈ perspectiveValues then [] else ["perspective"])

/-- `generateRequestSchema.parse`: succeeds exactly when no issue is
raised, filling the defaults `detailLevel := 5` and
`perspective := "balanced"` for absent fields; otherwise fails with the
list of violated field paths. -/
def parseGenerateRequest (c : ReqCandidate) :
    Except (List String) GenerateRequest :=
  if requestIssues c = [] then
    .ok { event := c.event
        , detailLevel := c.detailLevel.getD 5
        , perspective := c.perspective.getD "balanced" }
  else .error (requestIssues c)

/-! ## The response schema (`generateResponseSchema`) -/

/-- One `sources` entry of a step: a title and a URL string. -/
structure SourceRef where
  title : String
  url : String
deriving DecidableEq, Repr

/-- A candidate causal step as it reaches the schema: the five string
fields, the optional nullable `evidence_needed`, and the optional
`sources` and `depends_on` collections (`none` = absent). -/
structure StepCandidate where
  id : String
  title : String
  summary : String
  when : String
  mechanism : String
  evidence_needed : Option (Option String)
  sources : Option (List SourceRef)
  depends_on : Option (List String)
deriving DecidableEq, Repr

/-- A validated causal step: `sources` and `depends_on` are always
present (defaulted to `[]` when absent from the candidate). -/
structure CauseStep where
  id : String
  title : String
  summary : String
  when : String
  mechanism : String
  evidence_needed : Option (Option String)
  sources : List SourceRef
  depends_on : List String
deriving DecidableEq, Repr

/-- A candidate generation response. -/
structure RespCandidate where
  event : String
  generated_at : String
  perspective : String
  steps : List StepCandidate
deriving DecidableEq, Repr

/-- A validated `GenerateResponse`. -/
structure GenerateResponse where
  event : String
  generated_at : String
  perspective : String
  steps : List CauseStep
deriving DecidableEq, Repr

/-- A character allowed after the first position of a URL scheme. -/
def isSchemeTailChar (c : Char) : Bool :=
  c.isAlpha || c.isDigit || c == '+' || c == '-' || c == '.'

/-- Continues a URL scheme until the terminating colon. -/
def schemeColon : List Char → Bool
  | [] => false
  | ':' :: _ => true
  | c :: cs => isSchemeTailChar c && schemeColon cs

/-- Validity check performed by `z.string().url()`, which accepts a string
exactly when `new URL(string)` succeeds.  The WHATWG parser accepts a
string on its own (with no base) only when it begins with a scheme — an
ASCII letter followed by letters, digits, `+`, `-` or `.` up to a colon —
which is the discriminating core modelled here. -/
def isValidUrl (s : String) : Bool :=
  match s.toList with
  | [] => false
  | c :: cs => c.isAlpha && schemeColon cs

/-- Default-filling of one step by `generateResponseSchema`: absent
`sources` and `depends_on` become the empty sequence, all other fields are
passed through. -/
def normStep (st : StepCandidate) : CauseStep :=
  { id := st.id, title := st.title, summary := st.summary
  , when := st.when, mechanism := st.mechanism
  , evidence_needed := st.evidence_needed
  , sources := st.sources.getD []
  , depends_on := st.depends_on.getD [] }

/-- Every URL of a step's (defaulted) sources passes the URL check. -/
def stepSourcesOk (st : StepCandidate) : Bool :=
  (st.sources.getD []).all (fun src => isValidUrl src.url)

/-- `generateResponseSchema.parse` (src/sites/src/lib/types): the `steps`
array must have between 3 and 12 entries and every source URL of every
step must be a valid URL; on success each step is default-filled by
`normStep`, otherwise the whole response is rejected. -/
def parseGenerateResponse (r : RespCandidate) : Option GenerateResponse :=
  if 3 ≤ r.steps.length ∧ r.steps.length ≤ 12 ∧ r.steps.all stepSourcesOk then
    some { event := r.event, generated_at := r.generated_at
         , perspective := r.perspective, steps := r.steps.map normStep }
  else none

/-! ## History merge (`handleRequestMoreEvents`) -/

/-- Character-wise lowercasing, the model of
`String.prototype.toLowerCase` (exact on ASCII, where the dedup
comparisons of the source operate). -/
def lowerStr (s : String) : String :=
  String.mk (s.toList.map Char.toLower)

/-- `needle.isPrefixOf hay` unfolded over characters, the model of a
match of `String.prototype.includes` at the front. -/
def beginsWith : List Char → List Char → Bool
  | _, [] => true
  | [], _ :: _ => false
  | a :: as, b :: bs => a == b && beginsWith as bs

/-- `hay.includes(needle)` of JavaScript: `needle` occurs contiguously
somewhere in `hay`. -/
def containsSeq : List Char → List Char → Bool
  | [], needle => needle.isEmpty
  | h :: t, needle => beginsWith (h :: t) needle || containsSeq t needle

/-- The dedup test of `handleRequestMoreEvents` (src/App.tsx): a newly
fetched step is a duplicate when some existing step's lowercased summary
contains the first 50 characters of the new step's lowercased summary, or
the lowercased titles coincide. -/
def isDupStep (existing : List CauseStep) (n : CauseStep) : Bool :=
  existing.any (fun ex =>
    containsSeq (lowerStr ex.summary).toList
        ((lowerStr n.summary).toList.take 50) ||
    lowerStr ex.title == lowerStr n.title)

/-- The merge of `handleRequestMoreEvents`: the fetched steps that survive
the dedup filter are appended after the existing steps; when none survives
the state is left unchanged (the source shows an informational toast). -/
def mergeSteps (existing fetched : List CauseStep) : List CauseStep :=
  let newSteps := fetched.filter (fun n => !isDupStep existing n)
  if 0 < newSteps.length then existing ++ newSteps else existing

/-! ## `handleGenerate` error mapping and dispatch (src/App.tsx) -/

/-- The outcome of one `generateCausalChain` call as observed by
`handleGenerate`: a parsed response, an `ApiError` carrying the HTTP
status and body-derived message, or any other thrown error. -/
inductive GenOutcome where
  | success : GenerateResponse → GenOutcome
  | apiFailure : Nat → String → GenOutcome
  | otherFailure : GenOutcome

/-- The user-facing message chosen by the catch branch of
`handleGenerate`: 429 maps to the rate-limit message, 400 to the
invalid-input message, everything else to the generic message. -/
def generateErrorMessage : GenOutcome → String
  | .apiFailure status _ =>
    if status == 429 then "Rate limit exceeded. Please try again later."
    else if status == 400 then "Invalid request. Please check your input."
    else "Failed to generate causal chain"
  | _ => "Failed to generate causal chain"

/-- `String.prototype.trim`: whitespace removed from both ends, modelled
over the character list. -/
def jsTrim (s : String) : String :=
  String.mk
    (((s.toList.dropWhile Char.isWhitespace).reverse.dropWhile
        Char.isWhitespace).reverse)

/-- The slice of the React state touched by `handleGenerate`. -/
structure AppState where
  event : String
  perspective : String
  detailLevel : JsNum
  verify : Bool
  loading : Bool
  result : Option GenerateResponse
  error : Option String

/-- One run of `handleGenerate` (src/App.tsx): a signed-out user or an
event that is empty after trimming returns before any network activity;
otherwise `loading` is set and `error` cleared, the request is dispatched,
and the outcome either stores the result or stores the mapped error
message.  The first component records whether `generateCausalChain` (the
network call) was invoked. -/
def handleGenerateRun (loggedIn : Bool) (s : AppState) (o : GenOutcome) :
    Bool × AppState :=
  if !loggedIn then (false, s)
  else if jsTrim s.event = "" then (false, s)
  else
    let s1 := { s with loading := true, error := none }
    match o with
    | .success r => (true, { s1 with loading := false, result := some r })
    | .apiFailure st m =>
      (true, { s1 with
                loading := false,
                error := some (generateErrorMessage (.apiFailure st m)) })
    | .otherFailure =>
      (true, { s1 with
                loading := false,
                error := some (generateErrorMessage .otherFailure) })

/-! ## Claim theorems -/

/-- C1: for every candidate whose `event` has length in [5, 300], whose
`perspective` is absent or one of the five enumerated values, and whose
`detailLevel` is absent or a number in [1, 7], `generateRequestSchema`
validation succeeds and fills the defaults exactly (absent perspective
becomes `"balanced"`, absent detailLevel becomes `5`); and for every
candidate whose `event` is shorter than 5 or longer than 300 characters,
validation fails and the failure identifies the `event` field. -/
theorem request_validation_defaults_and_event_bounds :
    (∀ c : ReqCandidate,
      5 ≤ c.event.length → c.event.length ≤ 300 →
      (∀ p, c.perspective = some p → p ∈ perspectiveValues) →
      (∀ d, c.detailLevel = some d → 1 ≤ d ∧ d ≤ 7) →
      parseGenerateRequest c =
        .ok ⟨c.event, c.detailLevel.getD 5, c.perspective.getD "balanced"⟩) ∧
    (∀ c : ReqCandidate, c.event.length < 5 ∨ 300 < c.event.length →
      ∃ issues, parseGenerateRequest c = .error issues ∧ "event" ∈ issues) := by
  constructor
  · intro c h5 h300 hp hd
    have he : ¬(c.event.length < 5 ∨ 300 < c.event.length) := by omega
    have hIss : requestIssues c = [] := by
      unfold requestIssues
      rw [if_neg he]
      rcases hdl : c.detailLevel with _ | d
      · rcases hpp : c.perspective with _ | p
        · simp
        · simp [hp p hpp]
      · have hdle := hd d hdl
        have hdc : ¬(d < 1 ∨ 7 < d) := by
          push_neg
          exact ⟨hdle.1, hdle.2⟩
        rcases hpp : c.perspective with _ | p
        · simp [hdc]
        · simp [hdc, hp p hpp]
    simp [parseGenerateRequest, hIss]
  · intro c hbad
    have hIss : ∃ rest, requestIssues c = "event" :: rest := by
      unfold requestIssues
      rw [if_pos hbad]
      exact ⟨_, rfl⟩
    obtain ⟨rest, hr⟩ := hIss
    refine ⟨"event" :: rest, ?_, by simp⟩
    unfold parseGenerateRequest
    rw [hr]
    simp

/-- Witness for C1 at concrete inputs: a well-formed candidate with both
optional fields absent parses to the defaults, and a 3-character event is
rejected with the `event` field named. -/
theorem request_validation_defaults_and_event_bounds_witness :
    parseGenerateRequest ⟨"hello world", none, none⟩ =
      .ok ⟨"hello world", 5, "balanced"⟩ ∧
    ∃ issues, parseGenerateRequest ⟨"hey", none, none⟩ = .error issues ∧
      "event" ∈ issues :=
  ⟨request_validation_defaults_and_event_bounds.1 ⟨"hello world", none, none⟩
      (by decide) (by decide) (fun p h => by cases h) (fun d h => by cases h),
   request_validation_defaults_and_event_bounds.2 ⟨"hey", none, none⟩
      (by decide)⟩

/-- C6 counterexample: the schema has no integrality check
(`z.number().min(1).max(7)`, no `.int()`), so a candidate with the
fractional detail level 7/2 = 3.5 — which is not an integer — passes
validation, contrary to the claim that it fails. -/
theorem request_fractional_detail_accepted :
    parseGenerateRequest ⟨"hello world", some ((7 : ℚ)/2), none⟩ =
      .ok ⟨"hello world", (7 : ℚ)/2, "balanced"⟩ ∧
    ¬ ∃ n : ℤ, ((7 : ℚ)/2) = (n : ℚ) := by
  constructor
  · have h1 : ¬("hello world".length < 5 ∨ 300 < "hello world".length) := by
      decide
    have h2 : ¬((7 : ℚ)/2 < 1 ∨ 7 < (7 : ℚ)/2) := by norm_num
    simp [parseGenerateRequest, requestIssues, h1, h2]
  · rintro ⟨n, hn⟩
    have h7 : (7 : ℚ) = 2 * (n : ℚ) := by
      field_simp at hn
      linarith
    have h7z : (7 : ℤ) = 2 * n := by exact_mod_cast h7
    omega

/-- C6 amended: for every candidate with a well-formed `event` and
`perspective` and a present `detailLevel` value `d`, validation succeeds
exactly when `d` is a number in [1, 7]; integrality is not required, so
fractional values such as 3.5 pass. -/
theorem request_detail_level_range_only :
    ∀ (c : ReqCandidate) (d : ℚ),
      5 ≤ c.event.length → c.event.length ≤ 300 →
      (∀ p, c.perspective = some p → p ∈ perspectiveValues) →
      c.detailLevel = some d →
      ((parseGenerateRequest c).isOk = true ↔ 1 ≤ d ∧ d ≤ 7) := by
  intro c d h5 h300 hp hdl
  have he : ¬(c.event.length < 5 ∨ 300 < c.event.length) := by omega
  have hIss : requestIssues c =
      if d < 1 ∨ 7 < d then ["detailLevel"] else [] := by
    unfold requestIssues
    rw [if_neg he, hdl]
    rcases hpp : c.perspective with _ | p
    · simp
    · simp [hp p hpp]
  by_cases hcond : d < 1 ∨ 7 < d
  · rw [if_pos hcond] at hIss
    simp [parseGenerateRequest, hIss, Except.isOk, Except.toBool]
    intro hle
    rcases hcond with hlt | hlt <;> linarith
  · rw [if_neg hcond] at hIss
    push_neg at hcond
    simp [parseGenerateRequest, hIss, Except.isOk, Except.toBool]
    exact hcond

/-- Witness for the amended C6: the fractional level 3.5 lies in [1, 7]
and is accepted. -/
theorem request_detail_level_range_only_witness :
    (parseGenerateRequest ⟨"hello world", some ((7 : ℚ)/2), none⟩).isOk =
      true :=
  (request_detail_level_range_only _ ((7 : ℚ)/2) (by decide) (by decide)
    (fun p h => by cases h) rfl).mpr (by norm_num)

/-- C2: a response whose `steps` array has fewer than 3 or more than 12
entries is rejected outright by `generateResponseSchema`; with length
between 3 and 12 and otherwise-conformant steps (every source URL valid),
validation succeeds, preserving every step (no truncation or padding). -/
theorem response_steps_length_bounds :
    (∀ r : RespCandidate, r.steps.length < 3 ∨ 12 < r.steps.length →
      parseGenerateResponse r = none) ∧
    (∀ r : RespCandidate, 3 ≤ r.steps.length → r.steps.length ≤ 12 →
      (∀ st ∈ r.steps, stepSourcesOk st = true) →
      parseGenerateResponse r =
        some ⟨r.event, r.generated_at, r.perspective,
              r.steps.map normStep⟩) := by
  constructor
  · intro r hbad
    unfold parseGenerateResponse
    rw [if_neg]
    rintro ⟨h3, h12, -⟩
    rcases hbad with h | h <;> omega
  · intro r h3 h12 hok
    unfold parseGenerateResponse
    rw [if_pos ⟨h3, h12, List.all_eq_true.mpr hok⟩]

/-- Witness for C2: a 3-step response is accepted unchanged and a 1-step
response is rejected. -/
theorem response_steps_length_bounds_witness :
    parseGenerateResponse ⟨"e", "t", "balanced",
      [⟨"c1", "t1", "s1", "2024", "m1", none, none, none⟩,
       ⟨"c2", "t2", "s2", "2023", "m2", none, none, none⟩,
       ⟨"c3", "t3", "s3", "2022", "m3", none, none, none⟩]⟩ =
      some ⟨"e", "t", "balanced",
        List.map normStep
          [⟨"c1", "t1", "s1", "2024", "m1", none, none, none⟩,
           ⟨"c2", "t2", "s2", "2023", "m2", none, none, none⟩,
           ⟨"c3", "t3", "s3", "2022", "m3", none, none, none⟩]⟩ ∧
    parseGenerateResponse ⟨"e", "t", "balanced",
      [⟨"c1", "t1", "s1", "2024", "m1", none, none, none⟩]⟩ = none :=
  ⟨response_steps_length_bounds.2 _ (by decide) (by decide) (by decide),
   response_steps_length_bounds.1 _ (by decide)⟩

/-- C3: on a successful validation the steps are exactly the default-filled
input steps; `normStep` fills absent `sources` and `depends_on` with the
empty sequence; and a single invalid source URL anywhere in any step makes
the whole response fail (no step is accepted). -/
theorem response_source_defaults_and_url_all_or_nothing :
    (∀ r v, parseGenerateResponse r = some v →
      v.steps = r.steps.map normStep) ∧
    (∀ st : StepCandidate, st.sources = none →
      (normStep st).sources = []) ∧
    (∀ st : StepCandidate, st.depends_on = none →
      (normStep st).depends_on = []) ∧
    (∀ (r : RespCandidate) (st : StepCandidate) (src : SourceRef),
      st ∈ r.steps → src ∈ st.sources.getD [] →
      isValidUrl src.url = false →
      parseGenerateResponse r = none) := by
  refine ⟨?_, ?_, ?_, ?_⟩
  · intro r v hv
    unfold parseGenerateResponse at hv
    split at hv
    · cases hv
      rfl
    · cases hv
  · intro st h
    simp [normStep, h]
  · intro st h
    simp [normStep, h]
  · intro r st src hst hsrc hbad
    unfold parseGenerateResponse
    rw [if_neg]
    rintro ⟨-, -, hall⟩
    rw [List.all_eq_true] at hall
    have hok := hall st hst
    unfold stepSourcesOk at hok
    rw [List.all_eq_true] at hok
    have := hok src hsrc
    rw [hbad] at this
    cases this

/-- Witness for C3: a step with absent collections is default-filled, and
a response containing one malformed source URL is rejected whole. -/
theorem response_source_defaults_witness :
    (normStep ⟨"c1", "t1", "s1", "2024", "m1", none, none, none⟩).sources =
      [] ∧
    (normStep ⟨"c1", "t1", "s1", "2024", "m1", none, none, none⟩).depends_on =
      [] ∧
    parseGenerateResponse ⟨"e", "t", "balanced",
      [⟨"c1", "t1", "s1", "2024", "m1", none,
        some [⟨"a source", "not a url"⟩], none⟩,
       ⟨"c2", "t2", "s2", "2023", "m2", none, none, none⟩,
       ⟨"c3", "t3", "s3", "2022", "m3", none, none, none⟩]⟩ = none :=
  ⟨response_source_defaults_and_url_all_or_nothing.2.1 _ rfl,
   response_source_defaults_and_url_all_or_nothing.2.2.1 _ rfl,
   response_source_defaults_and_url_all_or_nothing.2.2.2 _
     ⟨"c1", "t1", "s1", "2024", "m1", none,
       some [⟨"a source", "not a url"⟩], none⟩
     ⟨"a source", "not a url"⟩ (by decide) (by decide) (by decide)⟩

/-- `beginsWith` matches `List.IsPrefix`. -/
theorem beginsWith_iff (l n : List Char) :
    beginsWith l n = true ↔ n <+: l := by
  induction n generalizing l with
  | nil =>
    simp only [beginsWith, true_iff]
    exact ⟨l, rfl⟩
  | cons b bs ih =>
    cases l with
    | nil =>
      simp only [beginsWith, Bool.false_eq_true, false_iff]
      rintro ⟨t, ht⟩
      simp at ht
    | cons a as =>
      rw [List.cons_prefix_cons]
      simp only [beginsWith, Bool.and_eq_true, beq_iff_eq, ih]
      constructor <;> rintro ⟨h1, h2⟩ <;> exact ⟨h1.symm, h2⟩

/-- `containsSeq` matches `List.IsInfix`: JavaScript
`hay.includes(needle)` holds exactly when `needle` occurs contiguously
inside `hay`. -/
theorem containsSeq_iff (hay needle : List Char) :
    containsSeq hay needle = true ↔ needle <:+: hay := by
  induction hay with
  | nil =>
    simp only [containsSeq, List.isEmpty_iff]
    constructor
    · rintro rfl
      exact ⟨[], [], rfl⟩
    · rintro ⟨s, t, hst⟩
      rcases List.append_eq_nil.mp (List.append_eq_nil.mp hst).1 with ⟨-, h⟩
      exact h
  | cons h t ih =>
    simp only [containsSeq, Bool.or_eq_true, beginsWith_iff, ih]
    constructor
    · rintro (⟨u, hu⟩ | ⟨s, u, hsu⟩)
      · exact ⟨[], u, by simpa using hu⟩
      · exact ⟨h :: s, u, by simp [hsu]⟩
    · rintro ⟨s, u, hsu⟩
      cases s with
      | nil =>
        exact Or.inl ⟨u, by simpa using hsu⟩
      | cons a s' =>
        right
        refine ⟨s', u, ?_⟩
        have := (List.cons.injEq a (s' ++ needle ++ u) h t).mp (by simpa using hsu)
        exact this.2

/-- C5: merging a fetched response into the existing steps appends, after
the unchanged existing steps and in their returned order, exactly those
fetched steps that are not duplicates; and a fetched step is a duplicate
precisely when its title case-insensitively equals an existing title or
the first 50 characters of its lowercased summary occur as a contiguous
substring of an existing step's lowercased summary. -/
theorem merge_dedup_characterization :
    (∀ existing fetched : List CauseStep,
      mergeSteps existing fetched =
        existing ++ fetched.filter (fun n => !isDupStep existing n)) ∧
    (∀ (existing : List CauseStep) (n : CauseStep),
      isDupStep existing n = true ↔
        ∃ ex ∈ existing,
          lowerStr ex.title = lowerStr n.title ∨
          (lowerStr n.summary).toList.take 50 <:+:
            (lowerStr ex.summary).toList) := by
  constructor
  · intro existing fetched
    unfold mergeSteps
    by_cases h : 0 < (fetched.filter (fun n => !isDupStep existing n)).length
    · rw [if_pos h]
    · rw [if_neg h]
      have hnil : fetched.filter (fun n => !isDupStep existing n) = [] := by
        rcases Nat.eq_zero_of_not_pos h with h0
        exact List.length_eq_zero.mp h0
      rw [hnil, List.append_nil]
  · intro existing n
    simp only [isDupStep, List.any_eq_true, Bool.or_eq_true, beq_iff_eq,
      containsSeq_iff]
    constructor
    · rintro ⟨ex, hex, hor⟩
      exact ⟨ex, hex, hor.symm⟩
    · rintro ⟨ex, hex, hor⟩
      exact ⟨ex, hex, hor.symm⟩

/-- C4: for every state in the valid state space (any event string, a
perspective from the enumeration, an integer detail level in [1, 7], a
boolean verify flag), decoding the encoded state reproduces the
normalized state. -/
theorem url_codec_roundtrip :
    ∀ (s : UrlState) (d : ℤ),
      s.detailLevel = .int d → 1 ≤ d → d ≤ 7 →
      s.perspective ∈ perspectiveValues →
      decodeUrlState (encodeUrlState s) = normalizeState s := by
  intro s d hdl h1 h7 hp
  obtain ⟨e, p, dl, v⟩ := s
  simp only at hdl hp
  subst hdl
  simp only [perspectiveValues, List.mem_cons, List.not_mem_nil,
    or_false] at hp
  interval_cases d <;> rcases hp with rfl | rfl | rfl | rfl | rfl <;>
    cases v <;> by_cases he : e = "" <;>
      first
        | (subst he; decide)
        | (simp [encodeUrlState, decodeUrlState, normalizeState, jsTruthyStr,
             jsTruthyNum, jsNumToString, jsOrStr, List.lookup, he] <;> decide)

/-- Witness for C4 at a concrete state with non-default fields. -/
theorem url_codec_roundtrip_witness :
    decodeUrlState (encodeUrlState
      ⟨"Bitcoin reached $100,000 in 2024", "economic", .int 3, true⟩) =
      normalizeState
        ⟨"Bitcoin reached $100,000 in 2024", "economic", .int 3, true⟩ :=
  url_codec_roundtrip _ 3 rfl (by decide) (by decide) (by decide)

/-- C7 counterexample: a present but unparseable detail-level value does
not fall back to 5 — decoding `d=abc` yields `NaN` (the `|| '5'` fallback
fires only for an absent or empty parameter). -/
theorem decode_detail_level_unparseable_counterexample :
    (decodeUrlState [("d", "abc")]).detailLevel = JsNum.nan ∧
    JsNum.nan ≠ JsNum.int 5 := by decide

/-- C7 amended: a present, non-empty detail-level value that does not
parse to an integer decodes to `NaN`; only an absent or empty detail-level
parameter falls back to 5. -/
theorem decode_detail_level_fallback :
    (∀ (params : List (String × String)) (vs : String),
      params.lookup "d" = some vs → vs ≠ "" → parseIntJs vs = .nan →
      (decodeUrlState params).detailLevel = .nan) ∧
    (∀ params : List (String × String), params.lookup "d" = none →
      (decodeUrlState params).detailLevel = .int 5) ∧
    (∀ params : List (String × String), params.lookup "d" = some "" →
      (decodeUrlState params).detailLevel = .int 5) := by
  refine ⟨?_, ?_, ?_⟩
  · intro params vs hl hne hnan
    simp [decodeUrlState, hl, jsOrStr, hne, hnan]
  · intro params hl
    simp [decodeUrlState, hl, jsOrStr]
    decide
  · intro params hl
    simp [decodeUrlState, hl, jsOrStr]
    decide

/-- Witness for the amended C7: `d=abc` decodes to `NaN`, an absent `d`
decodes to 5. -/
theorem decode_detail_level_fallback_witness :
    (decodeUrlState [("d", "abc")]).detailLevel = JsNum.nan ∧
    (decodeUrlState []).detailLevel = JsNum.int 5 :=
  ⟨decode_detail_level_fallback.1 _ "abc" rfl (by decide) (by decide),
   decode_detail_level_fallback.2.1 _ rfl⟩

/-- C10: decode performs no validation of the perspective enumeration — a
present, non-empty perspective value is returned verbatim, and only an
absent or empty perspective parameter yields `"balanced"`. -/
theorem decode_perspective_verbatim :
    (∀ (params : List (String × String)) (v : String),
      params.lookup "p" = some v → v ≠ "" →
      (decodeUrlState params).perspective = v) ∧
    (∀ params : List (String × String),
      params.lookup "p" = none ∨ params.lookup "p" = some "" →
      (decodeUrlState params).perspective = "balanced") := by
  constructor
  · intro params v hl hne
    simp [decodeUrlState, hl, jsOrStr, hne]
  · intro params hl
    rcases hl with hl | hl <;> simp [decodeUrlState, hl, jsOrStr]

/-- Witness for C10: `p=mystic`, a value outside the enumeration, decodes
verbatim; an absent `p` decodes to `"balanced"`. -/
theorem decode_perspective_verbatim_witness :
    (decodeUrlState [("p", "mystic")]).perspective = "mystic" ∧
    (decodeUrlState []).perspective = "balanced" ∧
    "mystic" ∉ perspectiveValues :=
  ⟨decode_perspective_verbatim.1 _ "mystic" rfl (by decide),
   decode_perspective_verbatim.2 _ (Or.inl rfl), by decide⟩

/-- C8: when the generation call fails with HTTP status 429, the stored
error message is exactly "Rate limit exceeded. Please try again later."
(whatever the response body said) and the previously displayed result is
left unchanged. -/
theorem rate_limit_message_and_result_preserved :
    ∀ (s : AppState) (body : String), jsTrim s.event ≠ "" →
      (handleGenerateRun true s (.apiFailure 429 body)).2.error =
        some "Rate limit exceeded. Please try again later." ∧
      (handleGenerateRun true s (.apiFailure 429 body)).2.result =
        s.result := by
  intro s body h
  simp [handleGenerateRun, generateErrorMessage, h]

/-- Witness for C8 at a concrete state holding a previous result. -/
theorem rate_limit_message_and_result_preserved_witness :
    (handleGenerateRun true
      ⟨"Silicon Valley Bank fails", "balanced", .int 5, false, false,
        some ⟨"e", "t", "balanced", []⟩, none⟩
      (.apiFailure 429 "Too Many Requests")).2.error =
      some "Rate limit exceeded. Please try again later." ∧
    (handleGenerateRun true
      ⟨"Silicon Valley Bank fails", "balanced", .int 5, false, false,
        some ⟨"e", "t", "balanced", []⟩, none⟩
      (.apiFailure 429 "Too Many Requests")).2.result =
      some ⟨"e", "t", "balanced", []⟩ :=
  rate_limit_message_and_result_preserved _ "Too Many Requests" (by decide)

/-- C9 counterexample: the client performs no schema validation before
dispatch — a signed-in submission with the 3-character event "abc"
(violating the schema's 5-character minimum) is dispatched to the
generation endpoint (`handleGenerateRun` reports the network call as
made). -/
theorem predispatch_short_event_dispatches :
    (handleGenerateRun true
      ⟨"abc", "balanced", .int 5, false, false, none, none⟩
      .otherFailure).1 = true ∧
    "abc".length < 5 := by decide

/-- C9 amended: the only client-side pre-dispatch checks are the signed-in
check and a non-empty-after-trim check on the event; an event that is
empty after trimming blocks the network call and leaves the state
unchanged, while any non-empty event — including ones violating the
request schema's length bounds — is dispatched. -/
theorem predispatch_gate_trim_only :
    ∀ (s : AppState) (o : GenOutcome),
      (jsTrim s.event = "" →
        (handleGenerateRun true s o).1 = false ∧
        (handleGenerateRun true s o).2 = s) ∧
      (jsTrim s.event ≠ "" → (handleGenerateRun true s o).1 = true) := by
  intro s o
  constructor
  · intro h
    simp [handleGenerateRun, h]
  · intro h
    cases o <;> simp [handleGenerateRun, h]

/-- Witness for the amended C9: a whitespace-only event blocks dispatch,
a 3-character event dispatches. -/
theorem predispatch_gate_trim_only_witness :
    (handleGenerateRun true
      ⟨"   ", "balanced", .int 5, false, false, none, none⟩
      .otherFailure).1 = false ∧
    (handleGenerateRun true
      ⟨"abc", "balanced", .int 5, false, false, none, none⟩
      .otherFailure).1 = true :=
  ⟨((predispatch_gate_trim_only _ _).1 (by decide)).1,
   (predispatch_gate_trim_only _ _).2 (by decide)⟩

end CauseFlow
